import Mathlib

/-
  Shallow embedding of the session/authorization core of the
  job-application backend (Express + Mongoose + jsonwebtoken).

  Source files embedded:
    * TokenService            (services/token_service, found in src/routes/job.js)
    * AuthController          (src/controllers/auth.js)
    * authenticateToken       (src/middlewares/auth.js)
    * requireRole             (src/middlewares/role.js)

  The Mongoose user model (src/models/user.js) is not present in the
  snapshot; its instance methods are modelled from the specification
  (sections 4.1 and 4.3), each marked in its doc comment.

  Wall-clock time is threaded explicitly as a natural number of seconds
  (the unit used by JWT `iat` / `exp` claims).  A JWT is modelled as an
  inductive value: either a well-formed signed token carrying its claims
  and the secret it was signed with, or a malformed string that fails to
  decode.
-/

namespace JobApp

/-- JWT claims payload `{ userId, email, role, iat, exp }` as produced by
`jwt.sign` on the controller's token payload. -/
structure Claims where
  userId : Nat
  email : String
  role : String
  iat : Nat
  exp : Nat
deriving DecidableEq, Repr

/-- A token string: either a well-formed JWT signed with some secret, or a
malformed string that `jwt.decode` cannot parse. -/
inductive TokenStr where
  | signed (claims : Claims) (secret : String)
  | malformed (raw : String)
deriving DecidableEq, Repr

/-- Failure kinds of the underlying `jsonwebtoken` library:
`JsonWebTokenError (invalid signature)`, `TokenExpiredError`, and
`JsonWebTokenError (jwt malformed)`. -/
inductive JwtError where
  | invalidSignature
  | expired
  | malformedToken
deriving DecidableEq, Repr

/-- `jwt.decode`: returns the embedded claims without checking signature or
expiry; `none` for a malformed token. -/
def jwtDecode : TokenStr → Option Claims
  | .signed c _ => some c
  | .malformed _ => none

/-- `jwt.verify(token, secret)` at clock time `now`: signature is checked
first, then expiry (`jsonwebtoken` treats the token as expired once
`now >= exp`). -/
def jwtVerify (tok : TokenStr) (secret : String) (now : Nat) : Except JwtError Claims :=
  match tok with
  | .malformed _ => .error .malformedToken
  | .signed c s =>
    if s ≠ secret then .error .invalidSignature
    else if c.exp ≤ now then .error .expired
    else .ok c

/-- `process.env.JWT_SECRET` (access-token signing secret). -/
def jwtSecret : String := "access-secret"

/-- `process.env.JWT_REFRESH_SECRET` (refresh-token signing secret,
distinct from the access secret). -/
def jwtRefreshSecret : String := "refresh-secret"

/-- Default access-token TTL: `JWT_EXPIRES_IN || '30m'`, in seconds. -/
def accessTtl : Nat := 1800

/-- Default refresh-token TTL: `JWT_REFRESH_EXPIRES_IN || '7d'`, in seconds. -/
def refreshTtl : Nat := 604800

/-- `TokenService.generateAccessToken`: signs the payload with the access
secret and TTL. -/
def generateAccessToken (userId : Nat) (email role : String) (now : Nat) : TokenStr :=
  .signed { userId := userId, email := email, role := role, iat := now, exp := now + accessTtl } jwtSecret

/-- `TokenService.generateRefreshToken`: signs the payload with the refresh
secret and TTL. -/
def generateRefreshToken (userId : Nat) (email role : String) (now : Nat) : TokenStr :=
  .signed { userId := userId, email := email, role := role, iat := now, exp := now + refreshTtl } jwtRefreshSecret

/-- `TokenService.generateTokens`: an access/refresh token pair. -/
def generateTokens (userId : Nat) (email role : String) (now : Nat) : TokenStr × TokenStr :=
  (generateAccessToken userId email role now, generateRefreshToken userId email role now)

/-- `TokenService.verifyAccessToken`: wraps `jwt.verify` with the access
secret; any library failure is rethrown as the single error
`"Invalid access token"`. -/
def verifyAccessToken (tok : TokenStr) (now : Nat) : Except String Claims :=
  match jwtVerify tok jwtSecret now with
  | .ok c => .ok c
  | .error _ => .error "Invalid access token"

/-- `TokenService.verifyRefreshToken`: wraps `jwt.verify` with the refresh
secret; any library failure is rethrown as the single error
`"Invalid refresh token"`. -/
def verifyRefreshToken (tok : TokenStr) (now : Nat) : Except String Claims :=
  match jwtVerify tok jwtRefreshSecret now with
  | .ok c => .ok c
  | .error _ => .error "Invalid refresh token"

/-- `TokenService.getTokenPayload`: `jwt.decode`, no verification. -/
def getTokenPayload (tok : TokenStr) : Option Claims :=
  jwtDecode tok

/-- An `Authorization` header value: either a well-formed `Bearer <token>`
or some other string. -/
inductive HeaderVal where
  | bearer (tok : TokenStr)
  | other (raw : String)
deriving DecidableEq, Repr

/-- `TokenService.extractTokenFromHeader`: returns the token of a
`Bearer <token>` header, `null` for an absent or malformed header. -/
def extractTokenFromHeader : Option HeaderVal → Option TokenStr
  | some (.bearer t) => some t
  | some (.other _) => none
  | none => none

/-- A Session Record: one stored refresh token with its expiry
(`user.refreshTokens` array entry). -/
structure SessionRecord where
  token : TokenStr
  expiresAt : Nat
deriving DecidableEq, Repr

/-- A User document (the Mongoose user model is absent from the snapshot;
fields are those read or written by the controllers and middleware). -/
structure User where
  id : Nat
  firstName : String
  lastName : String
  email : String
  password : String
  role : String
  isActive : Bool
  refreshTokens : List SessionRecord
deriving DecidableEq, Repr

/-- Modelled from the spec: section 4.1 `hash(plaintext) -> digest`, a
one-way digest of the plaintext (the user model's pre-save bcrypt hook is
missing from src).  An injective tagging function stands in for the hash. -/
def hashPw (plain : String) : String :=
  "digest:" ++ plain

/-- Modelled from the spec: section 4.1 `verify(plaintext, digest) -> bool`
(`user.comparePassword`, missing from src). -/
def comparePassword (u : User) (plain : String) : Bool :=
  hashPw plain = u.password

/-- Expiry embedded in a token, used when persisting a Session Record. -/
def tokenExpiry (tok : TokenStr) : Nat :=
  match jwtDecode tok with
  | some c => c.exp
  | none => 0

/-- Modelled from the spec: section 4.3 `add(userId, token, expiresAt)`
appends a new Session Record (`user.addRefreshToken`, missing from src). -/
def addRefreshToken (u : User) (tok : TokenStr) : User :=
  { u with refreshTokens := u.refreshTokens ++ [{ token := tok, expiresAt := tokenExpiry tok }] }

/-- Modelled from the spec: section 4.3 `remove(userId, token)` deletes the
records whose token exactly matches, a no-op if absent
(`user.removeRefreshToken`, missing from src). -/
def removeTok : List SessionRecord → TokenStr → List SessionRecord
  | [], _ => []
  | r :: rest, t => if r.token = t then removeTok rest t else r :: removeTok rest t

/-- Modelled from the spec: `user.removeRefreshToken` (missing from src). -/
def removeRefreshToken (u : User) (tok : TokenStr) : User :=
  { u with refreshTokens := removeTok u.refreshTokens tok }

/-- Modelled from the spec: section 4.3 `pruneExpired(userId)` removes every
record whose `expiresAt` has passed (`user.cleanExpiredTokens`, missing
from src). -/
def cleanTokens : List SessionRecord → Nat → List SessionRecord
  | [], _ => []
  | r :: rest, now => if r.expiresAt ≤ now then cleanTokens rest now else r :: cleanTokens rest now

/-- Modelled from the spec: `user.cleanExpiredTokens` (missing from src). -/
def cleanExpiredTokens (u : User) (now : Nat) : User :=
  { u with refreshTokens := cleanTokens u.refreshTokens now }

/-- The membership test `user.refreshTokens.some(t => t.token === token)`. -/
def hasToken : List SessionRecord → TokenStr → Bool
  | [], _ => false
  | r :: rest, t => if r.token = t then true else hasToken rest t

/-- The user collection, as a list of documents. -/
abbrev Db := List User

/-- `User.findById`: first document with the given id. -/
def findById : Db → Nat → Option User
  | [], _ => none
  | u :: rest, i => if u.id = i then some u else findById rest i

/-- `User.findOne({ email })`: first document with the given email. -/
def findOneByEmail : Db → String → Option User
  | [], _ => none
  | u :: rest, e => if u.email = e then some u else findOneByEmail rest e

/-- Persisting a modified document (`user.save()`): replaces the documents
with the same id. -/
def updateUser : Db → User → Db
  | [], _ => []
  | v :: rest, u => (if v.id = u.id then u else v) :: updateUser rest u

/-- Fresh `_id` for a newly created document. -/
def freshId (db : Db) : Nat :=
  db.length

/-- The externally observable part of an HTTP JSON response from the auth
controller: status code, message, and any tokens in the `data` payload. -/
structure AuthResponse where
  status : Nat
  message : String
  accessToken : Option TokenStr
  refreshToken : Option TokenStr
deriving DecidableEq, Repr

/-- An error response (no token data). -/
def errResp (status : Nat) (message : String) : AuthResponse :=
  ⟨status, message, none, none⟩

/-- Body of a register request.  `valid` is the outcome of the
express-validator rules (`validationResult(req).isEmpty()`); `role` is
`none` when the field is unspecified. -/
structure RegisterReq where
  valid : Bool
  firstName : String
  lastName : String
  email : String
  password : String
  role : Option String
deriving DecidableEq, Repr

/-- `AuthController.register`: rejects on validation failure or an existing
email; otherwise creates the user (role defaulting to `"applicant"`),
issues a token pair, and stores the refresh token on the new document. -/
def register (db : Db) (req : RegisterReq) (now : Nat) : AuthResponse × Db :=
  if !req.valid then (errResp 400 "Validation failed", db)
  else match findOneByEmail db req.email with
  | some _ => (errResp 400 "User with this email already exists", db)
  | none =>
    let u0 : User :=
      { id := freshId db, firstName := req.firstName, lastName := req.lastName,
        email := req.email, password := hashPw req.password,
        role := req.role.getD "applicant", isActive := true, refreshTokens := [] }
    let ts := generateTokens u0.id u0.email u0.role now
    let u1 := addRefreshToken u0 ts.2
    (⟨201, "User registered successfully", some ts.1, some ts.2⟩, db ++ [u1])

/-- `AuthController.login`: 401 (same message) when the email is unknown or
the password fails, 401 (deactivated) when `isActive` is false; on success
prunes expired records, issues a token pair and stores the refresh token. -/
def login (db : Db) (valid : Bool) (email password : String) (now : Nat) : AuthResponse × Db :=
  if !valid then (errResp 400 "Validation failed", db)
  else match findOneByEmail db email with
  | none => (errResp 401 "Invalid email or password", db)
  | some user =>
    if !user.isActive then (errResp 401 "Account is deactivated. Please contact support.", db)
    else if !comparePassword user password then (errResp 401 "Invalid email or password", db)
    else
      let u1 := cleanExpiredTokens user now
      let ts := generateTokens user.id user.email user.role now
      let u2 := addRefreshToken u1 ts.2
      (⟨200, "Login successful", some ts.1, some ts.2⟩, updateUser db u2)

/-- Mirror of `login`'s control flow recording whether execution reaches
the `comparePassword` call: it does only when validation passed, the email
matched a document, and that document is active. -/
def loginReachesCompare (db : Db) (valid : Bool) (email : String) : Bool :=
  if !valid then false
  else match findOneByEmail db email with
  | none => false
  | some user => user.isActive

/-- `AuthController.refreshToken`: verifies the refresh token, requires the
owning user to exist and the token to be present in that user's
`refreshTokens`, and on success issues a new access token only.  No branch
writes to the store. -/
def refreshToken (db : Db) (tok? : Option TokenStr) (now : Nat) : AuthResponse × Db :=
  match tok? with
  | none => (errResp 401 "Refresh token is required", db)
  | some tok =>
    match verifyRefreshToken tok now with
    | .error _ => (errResp 401 "Invalid or expired refresh token", db)
    | .ok decoded =>
      match findById db decoded.userId with
      | none => (errResp 401 "Invalid refresh token", db)
      | some user =>
        if hasToken user.refreshTokens tok then
          (⟨200, "Token refreshed successfully",
            some (generateAccessToken user.id user.email user.role now), none⟩, db)
        else (errResp 401 "Invalid refresh token", db)

/-- `AuthController.logout`: 400 when the token is missing or does not
decode; otherwise removes the matching Session Record when the owning user
exists and reports success either way. -/
def logout (db : Db) (tok? : Option TokenStr) : AuthResponse × Db :=
  match tok? with
  | none => (errResp 400 "Refresh token is required", db)
  | some tok =>
    match getTokenPayload tok with
    | none => (errResp 400 "Invalid refresh token", db)
    | some payload =>
      match findById db payload.userId with
      | some user => (⟨200, "Logout successful", none, none⟩, updateUser db (removeRefreshToken user tok))
      | none => (⟨200, "Logout successful", none, none⟩, db)

/-- `AuthController.logoutAll`: clears every Session Record of the
authenticated user. -/
def logoutAll (db : Db) (userId : Nat) : AuthResponse × Db :=
  match findById db userId with
  | some user => (⟨200, "Logged out from all devices successfully", none, none⟩,
                  updateUser db { user with refreshTokens := [] })
  | none => (⟨200, "Logged out from all devices successfully", none, none⟩, db)

/-- The identity view attached to the request context by `authenticateToken`. -/
structure Identity where
  userId : Nat
  email : String
  role : String
  firstName : String
  lastName : String
deriving DecidableEq, Repr

/-- `authenticateToken` middleware: extract bearer token (401 if absent),
verify it (401 on the service's `"Invalid access token"` error), load the
user (401 if missing or inactive), else attach the identity view. -/
def authenticateToken (db : Db) (authHeader : Option HeaderVal) (now : Nat) :
    Except AuthResponse Identity :=
  match extractTokenFromHeader authHeader with
  | none => .error (errResp 401 "Access token is required")
  | some tok =>
    match verifyAccessToken tok now with
    | .error _ => .error (errResp 401 "Invalid or expired access token")
    | .ok decoded =>
      match findById db decoded.userId with
      | none => .error (errResp 401 "User not found")
      | some user =>
        if !user.isActive then .error (errResp 401 "Account is deactivated")
        else .ok ⟨user.id, user.email, user.role, user.firstName, user.lastName⟩

/-- A route guarded by `authenticateToken`: the downstream handler runs only
when the middleware attached an identity. -/
def runProtected (db : Db) (authHeader : Option HeaderVal) (now : Nat)
    (handler : Identity → AuthResponse) : AuthResponse :=
  match authenticateToken db authHeader now with
  | .error r => r
  | .ok i => handler i

/-- The `allowedRoles` argument of `requireRole`: a single role or an array
of roles. -/
inductive RoleArg where
  | one (r : String)
  | many (rs : List String)
deriving DecidableEq, Repr

/-- The `Array.isArray(allowedRoles) ? allowedRoles : [allowedRoles]`
conversion. -/
def rolesOf : RoleArg → List String
  | .one r => [r]
  | .many rs => rs

/-- `requireRole` middleware (src/middlewares/role.js): 401 when no
identity is attached to the request, 403 when the attached identity's role
is not among the allowed roles, otherwise pass-through. -/
def requireRole (allowedRoles : RoleArg) (user? : Option Identity) : Except AuthResponse Unit :=
  match user? with
  | none => .error (errResp 401 "Authentication required")
  | some u =>
    if !(rolesOf allowedRoles).contains u.role then .error (errResp 403 "Insufficient permissions")
    else .ok ()

/- ## Store lemmas -/

theorem removeRefreshToken_id (u : User) (t : TokenStr) :
    (removeRefreshToken u t).id = u.id := rfl

theorem hasToken_removeTok (l : List SessionRecord) (t : TokenStr) :
    hasToken (removeTok l t) t = false := by
  induction l with
  | nil => rfl
  | cons r rest ih =>
    by_cases h : r.token = t
    · simp [removeTok, h, ih]
    · simp [removeTok, hasToken, h, ih]

theorem removeTok_removeTok (l : List SessionRecord) (t : TokenStr) :
    removeTok (removeTok l t) t = removeTok l t := by
  induction l with
  | nil => rfl
  | cons r rest ih =>
    by_cases h : r.token = t
    · simp [removeTok, h, ih]
    · simp [removeTok, h, ih]

theorem findById_id (db : Db) (u : User) (i : Nat)
    (h : findById db i = some u) : u.id = i := by
  induction db with
  | nil => simp [findById] at h
  | cons a rest ih =>
    by_cases ha : a.id = i
    · simp [findById, ha] at h
      rw [← h]; exact ha
    · simp [findById, ha] at h
      exact ih h

theorem findById_updateUser (db : Db) (u v : User) (i : Nat)
    (h : findById db i = some v) (hid : u.id = i) :
    findById (updateUser db u) i = some u := by
  induction db with
  | nil => simp [findById] at h
  | cons a rest ih =>
    by_cases ha : a.id = i
    · have : a.id = u.id := by rw [ha, hid]
      simp [findById, updateUser, this, hid]
    · have hne : ¬ a.id = u.id := by rw [hid]; exact ha
      simp [findById, ha] at h
      simp [findById, updateUser, hne, ha]
      exact ih h

theorem updateUser_updateUser (db : Db) (u : User) :
    updateUser (updateUser db u) u = updateUser db u := by
  induction db with
  | nil => rfl
  | cons a rest ih =>
    by_cases ha : a.id = u.id
    · simp [updateUser, ha, ih]
    · simp [updateUser, ha, ih]

/- ## Claim theorems -/

/-- C1.  Revocation wins over a cryptographically valid refresh token: for a
refresh token signed with the refresh secret, unexpired, stored on the
owning user, `logout` succeeds, `verifyRefreshToken` on its own still
succeeds, and a subsequent `refreshToken` on the post-logout store is
rejected with the 401 "Invalid refresh token" (session-not-found)
response. -/
theorem refresh_after_logout_fails (db : Db) (u : User) (c : Claims) (t : TokenStr) (now : Nat)
    (hfind : findById db c.userId = some u)
    (ht : t = .signed c jwtRefreshSecret)
    (hexp : now < c.exp)
    (hmem : hasToken u.refreshTokens t = true) :
    (logout db (some t)).1.status = 200
    ∧ verifyRefreshToken t now = .ok c
    ∧ (refreshToken (logout db (some t)).2 (some t) now).1
        = errResp 401 "Invalid refresh token" := by
  subst ht
  have hverify : verifyRefreshToken (.signed c jwtRefreshSecret) now = .ok c := by
    simp [verifyRefreshToken, jwtVerify, Nat.not_le.mpr hexp]
  have hlogout :
      logout db (some (.signed c jwtRefreshSecret))
        = (⟨200, "Logout successful", none, none⟩,
           updateUser db (removeRefreshToken u (.signed c jwtRefreshSecret))) := by
    simp [logout, getTokenPayload, jwtDecode, hfind]
  refine ⟨by rw [hlogout], hverify, ?_⟩
  rw [hlogout]
  have hid : (removeRefreshToken u (.signed c jwtRefreshSecret)).id = c.userId := by
    rw [removeRefreshToken_id]; exact findById_id db u c.userId hfind
  have hfind2 :
      findById (updateUser db (removeRefreshToken u (.signed c jwtRefreshSecret))) c.userId
        = some (removeRefreshToken u (.signed c jwtRefreshSecret)) :=
    findById_updateUser db _ u c.userId hfind hid
  have hht : hasToken (removeRefreshToken u (.signed c jwtRefreshSecret)).refreshTokens
      (.signed c jwtRefreshSecret) = false :=
    hasToken_removeTok u.refreshTokens _
  simp [refreshToken, hverify, hfind2, hht]

/-- C1 witness: a concrete store with one user holding one refresh token. -/
theorem refresh_after_logout_fails_witness :
    (logout
        [⟨1, "Ada", "L", "a@x.com", hashPw "Passw0rd", "applicant", true,
          [⟨.signed ⟨1, "a@x.com", "applicant", 0, 1000⟩ jwtRefreshSecret, 1000⟩]⟩]
        (some (.signed ⟨1, "a@x.com", "applicant", 0, 1000⟩ jwtRefreshSecret))).1.status = 200
    ∧ verifyRefreshToken (.signed ⟨1, "a@x.com", "applicant", 0, 1000⟩ jwtRefreshSecret) 5 = .ok ⟨1, "a@x.com", "applicant", 0, 1000⟩
    ∧ (refreshToken
         (logout
           [⟨1, "Ada", "L", "a@x.com", hashPw "Passw0rd", "applicant", true,
             [⟨.signed ⟨1, "a@x.com", "applicant", 0, 1000⟩ jwtRefreshSecret, 1000⟩]⟩]
           (some (.signed ⟨1, "a@x.com", "applicant", 0, 1000⟩ jwtRefreshSecret))).2
         (some (.signed ⟨1, "a@x.com", "applicant", 0, 1000⟩ jwtRefreshSecret)) 5).1
        = errResp 401 "Invalid refresh token" :=
  refresh_after_logout_fails
    [⟨1, "Ada", "L", "a@x.com", hashPw "Passw0rd", "applicant", true,
      [⟨.signed ⟨1, "a@x.com", "applicant", 0, 1000⟩ jwtRefreshSecret, 1000⟩]⟩]
    ⟨1, "Ada", "L", "a@x.com", hashPw "Passw0rd", "applicant", true,
      [⟨.signed ⟨1, "a@x.com", "applicant", 0, 1000⟩ jwtRefreshSecret, 1000⟩]⟩
    ⟨1, "a@x.com", "applicant", 0, 1000⟩ _ 5 (by decide) rfl (by decide) (by decide)

/-- C2 counterexample.  For each token class, one concrete token fails
verification only on its signature (its expiry 9999 is well in the
future) and another fails only on expiry (signed with the correct secret,
expiry 10 already passed at time 20), yet `verifyAccessToken` returns the
very same error value for both, and so does `verifyRefreshToken` — the
caller cannot tell the two failure causes apart in either class. -/
theorem verify_error_kinds_collapse_cex :
    jwtVerify (.signed ⟨1, "a@x.com", "applicant", 0, 9999⟩ "wrong-secret") jwtSecret 20
      = .error .invalidSignature
    ∧ jwtVerify (.signed ⟨1, "a@x.com", "applicant", 0, 10⟩ jwtSecret) jwtSecret 20
      = .error .expired
    ∧ verifyAccessToken (.signed ⟨1, "a@x.com", "applicant", 0, 9999⟩ "wrong-secret") 20
      = verifyAccessToken (.signed ⟨1, "a@x.com", "applicant", 0, 10⟩ jwtSecret) 20
    ∧ jwtVerify (.signed ⟨1, "a@x.com", "applicant", 0, 9999⟩ "wrong-secret") jwtRefreshSecret 20
      = .error .invalidSignature
    ∧ jwtVerify (.signed ⟨1, "a@x.com", "applicant", 0, 10⟩ jwtRefreshSecret) jwtRefreshSecret 20
      = .error .expired
    ∧ verifyRefreshToken (.signed ⟨1, "a@x.com", "applicant", 0, 9999⟩ "wrong-secret") 20
      = verifyRefreshToken (.signed ⟨1, "a@x.com", "applicant", 0, 10⟩ jwtRefreshSecret) 20 := by
  refine ⟨rfl, rfl, rfl, rfl, rfl, rfl⟩

/-- C2 amended.  Caller-indistinguishability of verification failures: any
two access tokens whose verification fails — whatever the underlying
causes, even one signature failure and one expiry failure — give equal
results from `verifyAccessToken`, namely the single value
`"Invalid access token"`; likewise any two failing refresh tokens give
equal results `"Invalid refresh token"` from `verifyRefreshToken`.  The
two failure kinds remain distinct inside the underlying `jwt.verify`
(`JwtError.invalidSignature ≠ JwtError.expired`) but are erased by the
wrappers. -/
theorem verify_errors_single_value (t1 t2 t3 t4 : TokenStr) (n1 n2 n3 n4 : Nat)
    (e1 e2 e3 e4 : JwtError)
    (h1 : jwtVerify t1 jwtSecret n1 = .error e1)
    (h2 : jwtVerify t2 jwtSecret n2 = .error e2)
    (h3 : jwtVerify t3 jwtRefreshSecret n3 = .error e3)
    (h4 : jwtVerify t4 jwtRefreshSecret n4 = .error e4) :
    verifyAccessToken t1 n1 = verifyAccessToken t2 n2
    ∧ verifyAccessToken t1 n1 = .error "Invalid access token"
    ∧ verifyRefreshToken t3 n3 = verifyRefreshToken t4 n4
    ∧ verifyRefreshToken t3 n3 = .error "Invalid refresh token"
    ∧ JwtError.invalidSignature ≠ JwtError.expired := by
  have a1 : verifyAccessToken t1 n1 = .error "Invalid access token" := by
    simp [verifyAccessToken, h1]
  have a2 : verifyAccessToken t2 n2 = .error "Invalid access token" := by
    simp [verifyAccessToken, h2]
  have r3 : verifyRefreshToken t3 n3 = .error "Invalid refresh token" := by
    simp [verifyRefreshToken, h3]
  have r4 : verifyRefreshToken t4 n4 = .error "Invalid refresh token" := by
    simp [verifyRefreshToken, h4]
  exact ⟨a1.trans a2.symm, a1, r3.trans r4.symm, r3, by simp⟩

/-- C2 amended witness: in each token class, a pure signature failure and a
pure expiry failure yield equal wrapper outputs — the class's single error
value. -/
theorem verify_errors_single_value_witness :
    verifyAccessToken (.signed ⟨1, "a@x.com", "applicant", 0, 9999⟩ "wrong-secret") 20
      = verifyAccessToken (.signed ⟨1, "a@x.com", "applicant", 0, 10⟩ jwtSecret) 20
    ∧ verifyAccessToken (.signed ⟨1, "a@x.com", "applicant", 0, 9999⟩ "wrong-secret") 20
      = .error "Invalid access token"
    ∧ verifyRefreshToken (.signed ⟨1, "a@x.com", "applicant", 0, 9999⟩ "wrong-secret") 20
      = verifyRefreshToken (.signed ⟨1, "a@x.com", "applicant", 0, 10⟩ jwtRefreshSecret) 20
    ∧ verifyRefreshToken (.signed ⟨1, "a@x.com", "applicant", 0, 9999⟩ "wrong-secret") 20
      = .error "Invalid refresh token"
    ∧ JwtError.invalidSignature ≠ JwtError.expired :=
  verify_errors_single_value
    (.signed ⟨1, "a@x.com", "applicant", 0, 9999⟩ "wrong-secret")
    (.signed ⟨1, "a@x.com", "applicant", 0, 10⟩ jwtSecret)
    (.signed ⟨1, "a@x.com", "applicant", 0, 9999⟩ "wrong-secret")
    (.signed ⟨1, "a@x.com", "applicant", 0, 10⟩ jwtRefreshSecret)
    20 20 20 20 .invalidSignature .expired .invalidSignature .expired
    rfl rfl rfl rfl

/-- C3 counterexample.  A refresh token value that is syntactically present
in the body but does not decode makes `logout` answer 400, not 200. -/
theorem logout_undecodable_cex :
    (logout [] (some (.malformed "garbage"))).1.status = 400
    ∧ (logout [] (some (.malformed "garbage"))).1.message = "Invalid refresh token" := by
  refine ⟨by decide, by decide⟩

/-- C3 amended.  `logout` returns 200 for every present refresh token that
decodes, regardless of whether the owning user exists or whether a Session
Record was removed; a missing token yields 400, and a present but
undecodable token also yields 400. -/
theorem logout_status_contract (db : Db) (t : TokenStr) (c : Claims)
    (hdec : getTokenPayload t = some c) :
    (logout db (some t)).1.status = 200
    ∧ (logout db (some t)).1.message = "Logout successful"
    ∧ (logout db none).1.status = 400 := by
  refine ⟨?_, ?_, by simp [logout, errResp]⟩
  all_goals cases hf : findById db c.userId <;> simp [logout, hdec, hf]

/-- C3 amended witness: a decodable token whose owner is absent from the
store still logs out with 200. -/
theorem logout_status_contract_witness :
    (logout [] (some (.signed ⟨1, "a@x.com", "applicant", 0, 1000⟩ jwtRefreshSecret))).1.status = 200
    ∧ (logout [] (some (.signed ⟨1, "a@x.com", "applicant", 0, 1000⟩ jwtRefreshSecret))).1.message
        = "Logout successful"
    ∧ (logout ([] : Db) none).1.status = 400 :=
  logout_status_contract []
    (.signed ⟨1, "a@x.com", "applicant", 0, 1000⟩ jwtRefreshSecret)
    ⟨1, "a@x.com", "applicant", 0, 1000⟩ (by decide)

/-- C4.  Account-enumeration resistance: a login for an email that matches
no user and a login for an existing active user with a failing password
produce identical responses (same status 401, same message, no tokens) and
both leave the store unchanged. -/
theorem login_enumeration_resistant (db : Db) (e1 p1 e2 p2 : String) (u : User) (n1 n2 : Nat)
    (h1 : findOneByEmail db e1 = none)
    (h2 : findOneByEmail db e2 = some u)
    (hact : u.isActive = true)
    (hpw : comparePassword u p2 = false) :
    login db true e1 p1 n1 = login db true e2 p2 n2
    ∧ (login db true e1 p1 n1).1.status = 401
    ∧ (login db true e1 p1 n1).1.message = "Invalid email or password" := by
  have ha : login db true e1 p1 n1 = (errResp 401 "Invalid email or password", db) := by
    simp [login, h1]
  have hb : login db true e2 p2 n2 = (errResp 401 "Invalid email or password", db) := by
    simp [login, h2, hact, hpw]
  rw [ha, hb]
  exact ⟨rfl, rfl, rfl⟩

/-- C4 witness: unknown email vs wrong password on a concrete one-user
store. -/
theorem login_enumeration_resistant_witness :
    login [⟨1, "Ada", "L", "b@x.com", hashPw "Passw0rd", "applicant", true, []⟩]
        true "a@x.com" "whatever" 0
      = login [⟨1, "Ada", "L", "b@x.com", hashPw "Passw0rd", "applicant", true, []⟩]
        true "b@x.com" "wrong" 0
    ∧ (login [⟨1, "Ada", "L", "b@x.com", hashPw "Passw0rd", "applicant", true, []⟩]
        true "a@x.com" "whatever" 0).1.status = 401
    ∧ (login [⟨1, "Ada", "L", "b@x.com", hashPw "Passw0rd", "applicant", true, []⟩]
        true "a@x.com" "whatever" 0).1.message = "Invalid email or password" :=
  login_enumeration_resistant
    [⟨1, "Ada", "L", "b@x.com", hashPw "Passw0rd", "applicant", true, []⟩]
    "a@x.com" "whatever" "b@x.com" "wrong"
    ⟨1, "Ada", "L", "b@x.com", hashPw "Passw0rd", "applicant", true, []⟩
    0 0 (by decide) (by decide) rfl (by decide)

/-- C5.  No refresh-token rotation: a successful `refreshToken` call leaves
the store exactly unchanged, returns a new access token and no refresh
token, and the same refresh token still succeeds on an immediately
following `refreshToken` call. -/
theorem refresh_frame_no_rotation (db : Db) (u : User) (c : Claims) (t : TokenStr) (now : Nat)
    (hfind : findById db c.userId = some u)
    (ht : t = .signed c jwtRefreshSecret)
    (hexp : now < c.exp)
    (hmem : hasToken u.refreshTokens t = true) :
    (refreshToken db (some t) now).2 = db
    ∧ (refreshToken db (some t) now).1.status = 200
    ∧ (refreshToken db (some t) now).1.refreshToken = none
    ∧ (refreshToken db (some t) now).1.accessToken
        = some (generateAccessToken u.id u.email u.role now)
    ∧ (refreshToken (refreshToken db (some t) now).2 (some t) now).1.status = 200 := by
  subst ht
  have hverify : verifyRefreshToken (.signed c jwtRefreshSecret) now = .ok c := by
    simp [verifyRefreshToken, jwtVerify, Nat.not_le.mpr hexp]
  have hr : refreshToken db (some (.signed c jwtRefreshSecret)) now
      = (⟨200, "Token refreshed successfully",
          some (generateAccessToken u.id u.email u.role now), none⟩, db) := by
    simp [refreshToken, hverify, hfind, hmem]
  rw [hr]
  refine ⟨rfl, rfl, rfl, rfl, ?_⟩
  simp [hr]

/-- C5 witness: a concrete store, refreshed twice with the same token. -/
theorem refresh_frame_no_rotation_witness :
    (refreshToken
        [⟨1, "Ada", "L", "a@x.com", hashPw "Passw0rd", "applicant", true,
          [⟨.signed ⟨1, "a@x.com", "applicant", 0, 1000⟩ jwtRefreshSecret, 1000⟩]⟩]
        (some (.signed ⟨1, "a@x.com", "applicant", 0, 1000⟩ jwtRefreshSecret)) 5).2
      = [⟨1, "Ada", "L", "a@x.com", hashPw "Passw0rd", "applicant", true,
          [⟨.signed ⟨1, "a@x.com", "applicant", 0, 1000⟩ jwtRefreshSecret, 1000⟩]⟩]
    ∧ (refreshToken
        [⟨1, "Ada", "L", "a@x.com", hashPw "Passw0rd", "applicant", true,
          [⟨.signed ⟨1, "a@x.com", "applicant", 0, 1000⟩ jwtRefreshSecret, 1000⟩]⟩]
        (some (.signed ⟨1, "a@x.com", "applicant", 0, 1000⟩ jwtRefreshSecret)) 5).1.status = 200
    ∧ (refreshToken
        [⟨1, "Ada", "L", "a@x.com", hashPw "Passw0rd", "applicant", true,
          [⟨.signed ⟨1, "a@x.com", "applicant", 0, 1000⟩ jwtRefreshSecret, 1000⟩]⟩]
        (some (.signed ⟨1, "a@x.com", "applicant", 0, 1000⟩ jwtRefreshSecret)) 5).1.refreshToken = none
    ∧ (refreshToken
        [⟨1, "Ada", "L", "a@x.com", hashPw "Passw0rd", "applicant", true,
          [⟨.signed ⟨1, "a@x.com", "applicant", 0, 1000⟩ jwtRefreshSecret, 1000⟩]⟩]
        (some (.signed ⟨1, "a@x.com", "applicant", 0, 1000⟩ jwtRefreshSecret)) 5).1.accessToken
        = some (generateAccessToken 1 "a@x.com" "applicant" 5)
    ∧ (refreshToken
        (refreshToken
          [⟨1, "Ada", "L", "a@x.com", hashPw "Passw0rd", "applicant", true,
            [⟨.signed ⟨1, "a@x.com", "applicant", 0, 1000⟩ jwtRefreshSecret, 1000⟩]⟩]
          (some (.signed ⟨1, "a@x.com", "applicant", 0, 1000⟩ jwtRefreshSecret)) 5).2
        (some (.signed ⟨1, "a@x.com", "applicant", 0, 1000⟩ jwtRefreshSecret)) 5).1.status = 200 :=
  refresh_frame_no_rotation
    [⟨1, "Ada", "L", "a@x.com", hashPw "Passw0rd", "applicant", true,
      [⟨.signed ⟨1, "a@x.com", "applicant", 0, 1000⟩ jwtRefreshSecret, 1000⟩]⟩]
    ⟨1, "Ada", "L", "a@x.com", hashPw "Passw0rd", "applicant", true,
      [⟨.signed ⟨1, "a@x.com", "applicant", 0, 1000⟩ jwtRefreshSecret, 1000⟩]⟩
    ⟨1, "a@x.com", "applicant", 0, 1000⟩ _ 5 (by decide) rfl (by decide) (by decide)

/-- C6.  Logout is idempotent: for any token that decodes, both consecutive
`logout` calls answer 200 and the second call leaves the store exactly as
the first call left it. -/
theorem logout_idempotent (db : Db) (t : TokenStr) (c : Claims)
    (hdec : getTokenPayload t = some c) :
    (logout db (some t)).1.status = 200
    ∧ (logout (logout db (some t)).2 (some t)).1.status = 200
    ∧ (logout (logout db (some t)).2 (some t)).2 = (logout db (some t)).2 := by
  cases hf : findById db c.userId with
  | none =>
    have h1 : logout db (some t) = (⟨200, "Logout successful", none, none⟩, db) := by
      simp [logout, hdec, hf]
    rw [h1]
    refine ⟨rfl, ?_, ?_⟩ <;> simp [h1]
  | some u =>
    have h1 : logout db (some t)
        = (⟨200, "Logout successful", none, none⟩, updateUser db (removeRefreshToken u t)) := by
      simp [logout, hdec, hf]
    have hid : (removeRefreshToken u t).id = c.userId := by
      rw [removeRefreshToken_id]; exact findById_id db u c.userId hf
    have hf2 : findById (updateUser db (removeRefreshToken u t)) c.userId
        = some (removeRefreshToken u t) :=
      findById_updateUser db _ u c.userId hf hid
    have hrr : removeRefreshToken (removeRefreshToken u t) t = removeRefreshToken u t := by
      simp [removeRefreshToken, removeTok_removeTok]
    have h2 : logout (updateUser db (removeRefreshToken u t)) (some t)
        = (⟨200, "Logout successful", none, none⟩,
           updateUser (updateUser db (removeRefreshToken u t)) (removeRefreshToken u t)) := by
      simp [logout, hdec, hf2, hrr]
    rw [h1]
    refine ⟨rfl, ?_, ?_⟩
    · simp [h2]
    · simp [h2, updateUser_updateUser]

/-- C6 witness: two consecutive logouts with a stored token on a concrete
one-user store. -/
theorem logout_idempotent_witness :
    (logout
        [⟨1, "Ada", "L", "a@x.com", hashPw "Passw0rd", "applicant", true,
          [⟨.signed ⟨1, "a@x.com", "applicant", 0, 1000⟩ jwtRefreshSecret, 1000⟩]⟩]
        (some (.signed ⟨1, "a@x.com", "applicant", 0, 1000⟩ jwtRefreshSecret))).1.status = 200
    ∧ (logout
        (logout
          [⟨1, "Ada", "L", "a@x.com", hashPw "Passw0rd", "applicant", true,
            [⟨.signed ⟨1, "a@x.com", "applicant", 0, 1000⟩ jwtRefreshSecret, 1000⟩]⟩]
          (some (.signed ⟨1, "a@x.com", "applicant", 0, 1000⟩ jwtRefreshSecret))).2
        (some (.signed ⟨1, "a@x.com", "applicant", 0, 1000⟩ jwtRefreshSecret))).1.status = 200
    ∧ (logout
        (logout
          [⟨1, "Ada", "L", "a@x.com", hashPw "Passw0rd", "applicant", true,
            [⟨.signed ⟨1, "a@x.com", "applicant", 0, 1000⟩ jwtRefreshSecret, 1000⟩]⟩]
          (some (.signed ⟨1, "a@x.com", "applicant", 0, 1000⟩ jwtRefreshSecret))).2
        (some (.signed ⟨1, "a@x.com", "applicant", 0, 1000⟩ jwtRefreshSecret))).2
      = (logout
          [⟨1, "Ada", "L", "a@x.com", hashPw "Passw0rd", "applicant", true,
            [⟨.signed ⟨1, "a@x.com", "applicant", 0, 1000⟩ jwtRefreshSecret, 1000⟩]⟩]
          (some (.signed ⟨1, "a@x.com", "applicant", 0, 1000⟩ jwtRefreshSecret))).2 :=
  logout_idempotent
    [⟨1, "Ada", "L", "a@x.com", hashPw "Passw0rd", "applicant", true,
      [⟨.signed ⟨1, "a@x.com", "applicant", 0, 1000⟩ jwtRefreshSecret, 1000⟩]⟩]
    (.signed ⟨1, "a@x.com", "applicant", 0, 1000⟩ jwtRefreshSecret)
    ⟨1, "a@x.com", "applicant", 0, 1000⟩ rfl

/-- C7.  Register: on a duplicate email it answers 400 and leaves the store
unchanged; on a fresh email it answers 201, returns an access and a
refresh token, and appends exactly one new user document carrying exactly
one Session Record, with role defaulting to `"applicant"` when the role
field is unspecified. -/
theorem register_contract (db : Db) (req : RegisterReq) (now : Nat) (hv : req.valid = true) :
    ((findOneByEmail db req.email).isSome →
      register db req now = (errResp 400 "User with this email already exists", db))
    ∧ (findOneByEmail db req.email = none →
      (register db req now).1.status = 201
      ∧ (register db req now).1.accessToken.isSome
      ∧ (register db req now).1.refreshToken.isSome
      ∧ ∃ newUser : User,
          (register db req now).2 = db ++ [newUser]
          ∧ newUser.role = req.role.getD "applicant"
          ∧ newUser.refreshTokens.length = 1) := by
  constructor
  · intro hs
    obtain ⟨u, hu⟩ := Option.isSome_iff_exists.mp hs
    simp [register, hv, hu]
  · intro hn
    have hreg : register db req now
        = (⟨201, "User registered successfully",
            some (generateAccessToken (freshId db) req.email (req.role.getD "applicant") now),
            some (generateRefreshToken (freshId db) req.email (req.role.getD "applicant") now)⟩,
           db ++ [addRefreshToken
             ⟨freshId db, req.firstName, req.lastName, req.email, hashPw req.password,
              req.role.getD "applicant", true, []⟩
             (generateRefreshToken (freshId db) req.email (req.role.getD "applicant") now)]) := by
      simp [register, hv, hn, generateTokens]
    rw [hreg]
    refine ⟨rfl, rfl, rfl,
      ⟨addRefreshToken
        ⟨freshId db, req.firstName, req.lastName, req.email, hashPw req.password,
         req.role.getD "applicant", true, []⟩
        (generateRefreshToken (freshId db) req.email (req.role.getD "applicant") now),
       rfl, rfl, rfl⟩⟩

/-- C7 witness: registering into an empty store with the role field left
unspecified. -/
theorem register_contract_witness :
    (register [] ⟨true, "Ada", "L", "a@x.com", "Passw0rd", none⟩ 0).1.status = 201
    ∧ (register [] ⟨true, "Ada", "L", "a@x.com", "Passw0rd", none⟩ 0).1.accessToken.isSome
    ∧ (register [] ⟨true, "Ada", "L", "a@x.com", "Passw0rd", none⟩ 0).1.refreshToken.isSome
    ∧ ∃ newUser : User,
        (register [] ⟨true, "Ada", "L", "a@x.com", "Passw0rd", none⟩ 0).2 = [] ++ [newUser]
        ∧ newUser.role = (none : Option String).getD "applicant"
        ∧ newUser.refreshTokens.length = 1 :=
  (register_contract [] ⟨true, "Ada", "L", "a@x.com", "Passw0rd", none⟩ 0 rfl).2 rfl

/-- C8.  An access token whose embedded expiry has passed is rejected by
`authenticateToken` with the 401 response, and a route guarded by the
middleware produces that same 401 for every downstream handler — the
handler is never consulted. -/
theorem expired_access_never_reaches_handler (db : Db) (c : Claims) (now : Nat)
    (handler : Identity → AuthResponse)
    (hexp : c.exp ≤ now) :
    authenticateToken db (some (.bearer (.signed c jwtSecret))) now
      = .error (errResp 401 "Invalid or expired access token")
    ∧ runProtected db (some (.bearer (.signed c jwtSecret))) now handler
      = errResp 401 "Invalid or expired access token" := by
  have hv : verifyAccessToken (.signed c jwtSecret) now = .error "Invalid access token" := by
    simp [verifyAccessToken, jwtVerify, hexp]
  constructor
  · simp [authenticateToken, extractTokenFromHeader, hv]
  · simp [runProtected, authenticateToken, extractTokenFromHeader, hv]

/-- C8 witness: an expired bearer token against a handler that would answer
200 if it were ever invoked. -/
theorem expired_access_never_reaches_handler_witness :
    authenticateToken [] (some (.bearer (.signed ⟨1, "a@x.com", "applicant", 0, 10⟩ jwtSecret))) 20
      = .error (errResp 401 "Invalid or expired access token")
    ∧ runProtected [] (some (.bearer (.signed ⟨1, "a@x.com", "applicant", 0, 10⟩ jwtSecret))) 20
        (fun _ => ⟨200, "handler reached", none, none⟩)
      = errResp 401 "Invalid or expired access token" :=
  expired_access_never_reaches_handler [] ⟨1, "a@x.com", "applicant", 0, 10⟩ 20
    (fun _ => ⟨200, "handler reached", none, none⟩) (by decide)

/-- C9.  The role check distinguishes missing authentication from a wrong
role: with no identity attached, `requireRole` answers 401 Authentication
required for every `allowedRoles` argument, and that 401 response is never
produced once an identity is attached. -/
theorem requireRole_unauthenticated_401 :
    ∀ ra : RoleArg,
      requireRole ra none = .error (errResp 401 "Authentication required")
      ∧ ∀ i : Identity,
          requireRole ra (some i) ≠ .error (errResp 401 "Authentication required") := by
  intro ra
  refine ⟨rfl, ?_⟩
  intro i h
  simp only [requireRole] at h
  split at h <;> simp [errResp] at h

/-- C10.  A login against a deactivated account answers the deactivation
401 for every supplied password, leaves the store unchanged, and the
password comparison is never reached. -/
theorem login_deactivated_precedes_password (db : Db) (email password : String) (u : User) (now : Nat)
    (h : findOneByEmail db email = some u)
    (hact : u.isActive = false) :
    login db true email password now
      = (errResp 401 "Account is deactivated. Please contact support.", db)
    ∧ loginReachesCompare db true email = false := by
  constructor
  · simp [login, h, hact]
  · simp [loginReachesCompare, h, hact]

/-- C10 witness: a deactivated user, queried with the correct password. -/
theorem login_deactivated_precedes_password_witness :
    login [⟨1, "Ada", "L", "a@x.com", hashPw "Passw0rd", "applicant", false, []⟩]
        true "a@x.com" "Passw0rd" 0
      = (errResp 401 "Account is deactivated. Please contact support.",
         [⟨1, "Ada", "L", "a@x.com", hashPw "Passw0rd", "applicant", false, []⟩])
    ∧ loginReachesCompare [⟨1, "Ada", "L", "a@x.com", hashPw "Passw0rd", "applicant", false, []⟩]
        true "a@x.com" = false :=
  login_deactivated_precedes_password
    [⟨1, "Ada", "L", "a@x.com", hashPw "Passw0rd", "applicant", false, []⟩]
    "a@x.com" "Passw0rd"
    ⟨1, "Ada", "L", "a@x.com", hashPw "Passw0rd", "applicant", false, []⟩
    0 (by decide) rfl

end JobApp
